import Mathlib

set_option autoImplicit false

namespace WholecellProxy

/-!
Shallow embedding of `src/wholecell-proxy.py`, a Flask proxy in front of the
Wholecell inventory API.  Pure request/response behaviour is modelled as
functions from the inbound parameters and the upstream network (a function
from the outbound URL to an upstream outcome) to an HTTP response; a handler
that can raise a Python exception returns `Except String`.  Timestamps
(`datetime.utcnow().isoformat()`) are passed in as an opaque string `ts`.
-/

/-- Json values as handled by the proxy. Python `None` maps to `null`,
dicts to `obj` with insertion-ordered fields, ints to `num`. -/
inductive Json where
  | null : Json
  | bool : Bool → Json
  | num : Int → Json
  | str : String → Json
  | arr : List Json → Json
  | obj : List (String × Json) → Json

/-- Python truthiness on Json values: `None`, `False`, `0`, the empty string,
the empty list and the empty dict are falsy. -/
def truthy : Json → Bool
  | .null => false
  | .bool b => b
  | .num n => n != 0
  | .str s => s != ""
  | .arr xs => !xs.isEmpty
  | .obj fs => !fs.isEmpty

/-- Json rendering of an optional string, as `jsonify` renders Python `None`. -/
def jsonOfOpt : Option String → Json
  | some s => .str s
  | none => .null

/-- Lookup of a key in a Json object body; `null` when the key is absent or
the value is not an object (used only to state properties of bodies built by
the handlers). -/
def jget : Json → String → Json
  | .obj fs, k => (fs.lookup k).getD .null
  | _, _ => .null

/-- Outcome of one outbound `requests.get` call as classified by the `try`
block of `make_wholecell_request`: an HTTP response with a status code and
parsed JSON body, a `Timeout`, a `ConnectionError`, or any other exception
carrying its message `str(e)`. -/
inductive UpstreamOutcome where
  | resp (status : Nat) (body : Json)
  | timeout
  | connError
  | exc (msg : String)

/-- The tuple `(success, data, error)` returned by `make_wholecell_request`. -/
structure WRes where
  success : Bool
  data : Option Json
  error : Option String

/-- The upstream network: what outcome the single outbound GET to a given URL
produces.  Handlers receive it as a parameter. -/
abbrev Net : Type := String → UpstreamOutcome

/-- Embedding of `make_wholecell_request` (lines 54-101): the if/elif chain on
the response status, and the three `except` clauses. -/
def make_wholecell_request (o : UpstreamOutcome) : WRes :=
  match o with
  | .resp status body =>
      if status = 200 then ⟨true, some body, none⟩
      else if status = 401 then ⟨false, none, some "Authentication failed"⟩
      else if status = 404 then ⟨false, none, some "Not found"⟩
      else ⟨false, none, some ("API error: " ++ toString status)⟩
  | .timeout => ⟨false, none, some "Request timed out"⟩
  | .connError => ⟨false, none, some "Could not connect to Wholecell API"⟩
  | .exc m => ⟨false, none, some m⟩

/-- A local HTTP response: status code and JSON body. -/
structure HttpResponse where
  status : Nat
  body : Json

/-- Embedding of `dict(request.args)`: the Werkzeug `MultiDict` keeps, per
key, the list of values in arrival order, and converting it to a plain dict
keeps the first value of each key (keys in order of first occurrence).
`seen` accumulates the keys already emitted. -/
def toDictAux (seen : List String) : List (String × String) → List (String × String)
  | [] => []
  | (k, v) :: rest =>
      if k ∈ seen then toDictAux seen rest
      else (k, v) :: toDictAux (k :: seen) rest

/-- The inbound query pairs after `params = dict(request.args)` (line 140). -/
def toDict (args : List (String × String)) : List (String × String) :=
  toDictAux [] args

/-- The manual ampersand join of line 144, with no URL encoding of keys or
values: each pair is rendered as key, equals sign, value. -/
def queryString (params : List (String × String)) : String :=
  "&".intercalate (params.map fun kv => kv.1 ++ "=" ++ kv.2)

/-- The URL built by `get_all_inventory` (lines 142-145): the base URL, plus
`?` and the joined parameters when the params dict is non-empty. -/
def inventoryUrl (base : String) (args : List (String × String)) : String :=
  let params := toDict args
  if params.isEmpty then base else base ++ "?" ++ queryString params

/-- Embedding of the `/api/inventory` handler `get_all_inventory`
(lines 131-159). -/
def get_all_inventory (base ts : String) (args : List (String × String))
    (up : Net) : HttpResponse :=
  let r := make_wholecell_request (up (inventoryUrl base args))
  if r.success then
    ⟨200, r.data.getD .null⟩
  else
    ⟨500, .obj [("success", .bool false), ("error", jsonOfOpt r.error),
                ("timestamp", .str ts)]⟩

/-- The URL `f"{WHOLECELL_API_BASE}?esn={esn}"` used by the per-ESN routes. -/
def esnUrl (base esn : String) : String :=
  base ++ "?esn=" ++ esn

/-- Embedding of the `/api/inventory/<esn>` handler `get_inventory_by_esn`
(lines 162-188); the failure status is chosen by comparing the error string
with `"Not found"`. -/
def get_inventory_by_esn (base ts esn : String) (up : Net) : HttpResponse :=
  let r := make_wholecell_request (up (esnUrl base esn))
  if r.success then
    ⟨200, .obj [("success", .bool true), ("data", r.data.getD .null),
                ("esn", .str esn), ("timestamp", .str ts)]⟩
  else
    ⟨if r.error = some "Not found" then 404 else 500,
     .obj [("success", .bool false), ("error", jsonOfOpt r.error),
           ("esn", .str esn), ("timestamp", .str ts)]⟩

/-- The fixed identifier list of the batch route (line 252). -/
def known_imeis : List String :=
  ["H95DHMF9Q1GC", "F9FG5XAJQ1GC", "F9GG5BXXQ1GC"]

/-- Selection of the item examined by the batch route (lines 272-277): first
element of a list response, the dict itself for a dict response, `None`
otherwise; the extraction block then runs only `if item:` (truthy). -/
def item_to_extract : Json → Option Json
  | .arr (x :: _) => if truthy x then some x else none
  | .obj fs => if truthy (.obj fs) then some (.obj fs) else none
  | _ => none

/-- Best-effort field extraction of the batch route (lines 280-285):
`item.get` on a non-dict item raises `AttributeError`; the `product` and
`product_variation` lookups are guarded by `isinstance(..., dict)` and
degrade to `None`, as do missing `esn`, `model`, `grade` or
`total_price_paid` keys. -/
def extract_fields : Json → Except String Json
  | .obj fs =>
      .ok (.obj
        [("esn", (fs.lookup "esn").getD .null),
         ("model",
           match fs.lookup "product" with
           | some (.obj ps) => (ps.lookup "model").getD .null
           | _ => .null),
         ("grade",
           match fs.lookup "product_variation" with
           | some (.obj ps) => (ps.lookup "grade").getD .null
           | _ => .null),
         ("total_price_paid", (fs.lookup "total_price_paid").getD .null)])
  | _ => .error "AttributeError"

/-- The result object built for one IMEI by the batch route (lines 257-290).
`Except.error` models an uncaught Python exception. -/
def imei_result (base : String) (up : Net) (imei : String) :
    Except String Json :=
  let r := make_wholecell_request (up (esnUrl base imei))
  if r.success then
    let data := r.data.getD .null
    match item_to_extract data with
    | some item => do
        let ex ← extract_fields item
        pure (.obj [("imei", .str imei), ("success", .bool r.success),
                    ("found", .bool true), ("data", data), ("extracted", ex)])
    | none =>
        pure (.obj [("imei", .str imei), ("success", .bool r.success),
                    ("found", .bool true), ("data", data)])
  else
    pure (.obj [("imei", .str imei), ("success", .bool r.success),
                ("found", .bool false), ("error", jsonOfOpt r.error)])

/-- Embedding of the `/api/test/known-imeis` handler `test_known_imeis`
(lines 245-300): one sequential upstream call per identifier, in list order;
an exception in any iteration propagates (and Flask would turn it into an
HTTP 500). -/
def test_known_imeis (base ts : String) (up : Net) :
    Except String HttpResponse := do
  let results ← known_imeis.mapM (imei_result base up)
  let success_count :=
    (results.filter (fun r => truthy (jget r "success"))).length
  pure ⟨200, .obj
    [("total_tested", .num (known_imeis.length : Int)),
     ("successful", .num (success_count : Int)),
     ("failed", .num ((known_imeis.length : Int) - (success_count : Int))),
     ("results", .arr results),
     ("timestamp", .str ts)]⟩

/-- Truthiness of an environment value as Python sees it: `os.environ.get`
yields `None` when unset, and the empty string is also falsy. -/
def credPresent : Option String → Bool
  | some s => s != ""
  | none => false

/-- The process configuration: the two secrets and the base URL. -/
structure Config where
  appId : Option String
  appSecret : Option String
  apiBase : String

/-- Embedding of the `/api/config` handler `get_config` (lines 303-313): the
body holds only the base URL and the two configured-or-not booleans. -/
def get_config (c : Config) : HttpResponse :=
  ⟨200, .obj [("api_base", .str c.apiBase),
              ("app_id_configured", .bool (credPresent c.appId)),
              ("app_secret_configured", .bool (credPresent c.appSecret))]⟩

/-- What module import ends in: `sys.exit(1)` before any route or listener is
set up, or a process that goes on to serve. -/
inductive StartupResult where
  | exited (code : Nat)
  | serve

/-- Embedding of the module-level credential check (lines 33-39): if either
secret is unset or empty the process logs and exits with code 1; the listener
(`app.run`) is only reached in the `serve` case. -/
def startup (appId appSecret : Option String) : StartupResult :=
  if !credPresent appId || !credPresent appSecret then .exited 1
  else .serve

/-- Keys emitted by `toDictAux` are distinct and avoid the accumulator. -/
theorem toDictAux_keys (l : List (String × String)) (seen : List String) :
    ((toDictAux seen l).map Prod.fst).Nodup ∧
    ∀ k ∈ (toDictAux seen l).map Prod.fst, k ∉ seen := by
  induction l generalizing seen with
  | nil => simp [toDictAux]
  | cons kv rest ih =>
    obtain ⟨k, v⟩ := kv
    by_cases hk : k ∈ seen
    · simpa [toDictAux, hk] using ih seen
    · have h2 := ih (k :: seen)
      simp only [toDictAux, if_neg hk, List.map_cons, List.nodup_cons, List.mem_cons]
      refine ⟨⟨fun hmem => (h2.2 k hmem) (by simp), h2.1⟩, ?_⟩
      rintro k' (rfl | hk')
      · exact hk
      · have := h2.2 k' hk'
        simp only [List.mem_cons, not_or] at this
        exact this.2

/-- The first value per key survives the `dict(request.args)` conversion. -/
theorem toDictAux_lookup (l : List (String × String)) (seen : List String)
    (k : String) (hk : k ∉ seen) :
    (toDictAux seen l).lookup k = l.lookup k := by
  induction l generalizing seen with
  | nil => rfl
  | cons kv rest ih =>
    obtain ⟨k', v⟩ := kv
    by_cases hks : k' ∈ seen
    · have hne : k ≠ k' := fun h => hk (h ▸ hks)
      have hbeq : (k == k') = false := by simpa using hne
      simp only [toDictAux, if_pos hks, List.lookup_cons, hbeq]
      exact ih seen hk
    · by_cases heq : k = k'
      · subst heq
        simp [toDictAux, hks, List.lookup_cons]
      · have hfresh : k ∉ k' :: seen := by simp [heq, hk]
        have hbeq : (k == k') = false := by simpa using heq
        simp only [toDictAux, if_neg hks, List.lookup_cons, hbeq]
        exact ih (k' :: seen) hfresh

/-- When the inbound keys are pairwise distinct, the conversion keeps every
pair unchanged. -/
theorem toDictAux_eq_self (l : List (String × String)) (seen : List String)
    (hd : (l.map Prod.fst).Nodup) (hdisj : ∀ k ∈ l.map Prod.fst, k ∉ seen) :
    toDictAux seen l = l := by
  induction l generalizing seen with
  | nil => rfl
  | cons kv rest ih =>
    obtain ⟨k, v⟩ := kv
    have hk : k ∉ seen := hdisj k (by simp)
    simp only [List.map_cons, List.nodup_cons] at hd
    simp only [toDictAux, if_neg hk]
    rw [ih (k :: seen) hd.2]
    rintro k' hk'
    simp only [List.mem_cons, not_or]
    exact ⟨fun h => hd.1 (h ▸ hk'), hdisj k' (by simp [hk'])⟩

/-- C2: `make_wholecell_request` maps every upstream outcome to exactly one
tagged result: 200 to success with the parsed body, 401 to the
authentication-failure message, 404 to the not-found message, any other
status to an API-error message carrying that status, a timeout to the
timed-out message, a connection failure to the connection message, and any
other exception to its own message. -/
theorem make_wholecell_request_classification (body : Json) (s : Nat)
    (m : String) :
    make_wholecell_request (.resp 200 body) = ⟨true, some body, none⟩ ∧
    make_wholecell_request (.resp 401 body) =
      ⟨false, none, some "Authentication failed"⟩ ∧
    make_wholecell_request (.resp 404 body) =
      ⟨false, none, some "Not found"⟩ ∧
    (s ≠ 200 → s ≠ 401 → s ≠ 404 →
      make_wholecell_request (.resp s body) =
        ⟨false, none, some ("API error: " ++ toString s)⟩) ∧
    make_wholecell_request .timeout =
      ⟨false, none, some "Request timed out"⟩ ∧
    make_wholecell_request .connError =
      ⟨false, none, some "Could not connect to Wholecell API"⟩ ∧
    make_wholecell_request (.exc m) = ⟨false, none, some m⟩ := by
  refine ⟨rfl, rfl, rfl, ?_, rfl, rfl, rfl⟩
  intro h1 h2 h3
  simp [make_wholecell_request, h1, h2, h3]

/-- Witness for C2 at the concrete status 503 and a concrete exception. -/
theorem make_wholecell_request_classification_witness :
    make_wholecell_request (.resp 503 .null) =
      ⟨false, none, some ("API error: " ++ toString 503)⟩ :=
  (make_wholecell_request_classification .null 503 "boom").2.2.2.1
    (by decide) (by decide) (by decide)

/-- C10: converting the inbound multi-valued query parameters to a plain dict
leaves at most one value per key, namely the first one, and the upstream URL
is built from exactly that converted dict; concretely, a repeated `page` key
keeps only its first value. -/
theorem duplicate_query_keys_dropped (base : String)
    (args : List (String × String)) (k : String) :
    ((toDict args).map Prod.fst).Nodup ∧
    (toDict args).lookup k = args.lookup k ∧
    inventoryUrl base args =
      (if (toDict args).isEmpty then base
       else base ++ "?" ++ queryString (toDict args)) ∧
    toDict [("page", "1"), ("page", "2")] = [("page", "1")] :=
  ⟨(toDictAux_keys args []).1,
   toDictAux_lookup args [] k (by simp),
   rfl,
   rfl⟩

/-- C1: with pairwise-distinct keys, `/api/inventory` forwards every inbound
key/value pair verbatim into the single upstream URL (no value encoding),
returns the upstream 200 body unchanged, and wraps any upstream failure into
a 500 error envelope. -/
theorem inventory_forwards_all_params (base ts : String)
    (args : List (String × String)) (body : Json) (up : Net)
    (hnodup : (args.map Prod.fst).Nodup) :
    toDict args = args ∧
    inventoryUrl base args =
      (if args.isEmpty then base
       else base ++ "?" ++
         "&".intercalate (args.map fun kv => kv.1 ++ "=" ++ kv.2)) ∧
    (up (inventoryUrl base args) = .resp 200 body →
      get_all_inventory base ts args up = ⟨200, body⟩) ∧
    ((make_wholecell_request (up (inventoryUrl base args))).success = false →
      get_all_inventory base ts args up =
        ⟨500, .obj [("success", .bool false),
                    ("error", jsonOfOpt
                      (make_wholecell_request
                        (up (inventoryUrl base args))).error),
                    ("timestamp", .str ts)]⟩) := by
  have htd : toDict args = args :=
    toDictAux_eq_self args [] hnodup (by simp)
  refine ⟨htd, ?_, ?_, ?_⟩
  · simp only [inventoryUrl, htd, queryString]
  · intro h
    simp [get_all_inventory, h, make_wholecell_request]
  · intro h
    simp only [get_all_inventory]
    rw [if_neg (by simp [h])]

/-- Witness for C1 at two concrete distinct-key parameters and an upstream
that answers 200 with a concrete body. -/
theorem inventory_forwards_all_params_witness :
    get_all_inventory "B" "T" [("page", "1"), ("status", "Sold")]
      (fun _ => .resp 200 (.str "ok")) = ⟨200, .str "ok"⟩ :=
  (inventory_forwards_all_params "B" "T" [("page", "1"), ("status", "Sold")]
    (.str "ok") (fun _ => .resp 200 (.str "ok")) (by decide)).2.2.1 rfl

/-- An API-error message never collides with the not-found message, since
the two strings have different lengths. -/
theorem api_error_ne_not_found (s : Nat) :
    "API error: " ++ toString s ≠ "Not found" := by
  intro h
  have hlen := congrArg String.length h
  rw [String.length_append] at hlen
  have h1 : "API error: ".length = 11 := rfl
  have h2 : "Not found".length = 9 := rfl
  omega

/-- C3 counterexample: a generic upstream exception whose message happens to
be exactly the not-found message is mapped by `/api/inventory/<esn>` to
local status 404, not 500, because the handler compares error strings. -/
theorem esn_route_exception_counterexample :
    (get_inventory_by_esn "B" "T" "X" (fun _ => .exc "Not found")).status
      = 404 ∧ (404 : Nat) ≠ 500 :=
  ⟨rfl, by decide⟩

/-- C3 amended: `/api/inventory/<esn>` answers 200 with success, the data and
the esn echoed exactly when the upstream answers 200; on any failure it
echoes the esn with success false and picks the local status by comparing
the error message with the not-found message: exactly 404 when the message
is that string (upstream 404, or any exception carrying it), else 500. -/
theorem esn_route_status_by_error_message (base ts esn e : String)
    (o : UpstreamOutcome) (body : Json) :
    (o = .resp 200 body →
      get_inventory_by_esn base ts esn (fun _ => o) =
        ⟨200, .obj [("success", .bool true), ("data", body),
                    ("esn", .str esn), ("timestamp", .str ts)]⟩) ∧
    ((make_wholecell_request o).success = false →
     (make_wholecell_request o).error = some e →
      get_inventory_by_esn base ts esn (fun _ => o) =
        ⟨if e = "Not found" then 404 else 500,
         .obj [("success", .bool false), ("error", .str e),
               ("esn", .str esn), ("timestamp", .str ts)]⟩) := by
  constructor
  · intro h
    subst h
    simp [get_inventory_by_esn, make_wholecell_request]
  · intro hs he
    simp only [get_inventory_by_esn, hs, he, Bool.false_eq_true, if_false,
      jsonOfOpt, Option.some.injEq]

/-- Witness for C3 amended at an upstream 404 outcome. -/
theorem esn_route_status_by_error_message_witness :
    get_inventory_by_esn "B" "T" "X" (fun _ => .resp 404 .null) =
      ⟨404, .obj [("success", .bool false), ("error", .str "Not found"),
                  ("esn", .str "X"), ("timestamp", .str "T")]⟩ := by
  have h :=
    (esn_route_status_by_error_message "B" "T" "X" "Not found"
      (.resp 404 .null) .null).2 rfl rfl
  simpa using h

/-- C4 evaluated at a failing input: when the upstream answers the first
identifier with 200 and the body `["hello"]`, the batch route raises an
AttributeError (string item has no `get`), so the route does not produce the
always-200 summary the claim promises. -/
theorem known_imeis_route_raises_on_scalar_item :
    test_known_imeis "B" "T" (fun _ => .resp 200 (.arr [.str "hello"])) =
      .error "AttributeError" := rfl

/-- C5 evaluated: extraction yields the four named fields on the reference
item and degrades a missing product to a null model; but on a truthy
non-dict item (first element of the body `["hello"]`) the per-identifier
extraction raises an AttributeError instead of degrading to null. -/
theorem extract_fields_reference_and_raise :
    extract_fields
      (.obj [("esn", .str "X"), ("product", .obj [("model", .str "M1")]),
             ("product_variation", .obj [("grade", .str "A")]),
             ("total_price_paid", .num 10)]) =
      .ok (.obj [("esn", .str "X"), ("model", .str "M1"),
                 ("grade", .str "A"), ("total_price_paid", .num 10)]) ∧
    extract_fields (.obj [("esn", .str "X")]) =
      .ok (.obj [("esn", .str "X"), ("model", .null), ("grade", .null),
                 ("total_price_paid", .null)]) ∧
    imei_result "B" (fun _ => .resp 200 (.arr [.str "hello"]))
      "H95DHMF9Q1GC" = .error "AttributeError" :=
  ⟨rfl, rfl, rfl⟩

/-- C6: when either secret is unset or empty, module import exits with the
non-zero code 1 and never reaches the serving (listener-binding) state. -/
theorem missing_credentials_fail_fast (appId appSecret : Option String)
    (h : appId = none ∨ appId = some "" ∨
         appSecret = none ∨ appSecret = some "") :
    startup appId appSecret = .exited 1 ∧
    startup appId appSecret ≠ .serve ∧ (1 : Nat) ≠ 0 := by
  have hcred : (!credPresent appId || !credPresent appSecret) = true := by
    rcases h with h | h | h | h <;> subst h <;> simp [credPresent]
  exact ⟨by simp [startup, hcred], by simp [startup, hcred], by decide⟩

/-- Witness for C6 with the application id unset and a non-empty secret. -/
theorem missing_credentials_fail_fast_witness :
    startup none (some "sek") = .exited 1 ∧
    startup none (some "sek") ≠ .serve ∧ (1 : Nat) ≠ 0 :=
  missing_credentials_fail_fast none (some "sek") (Or.inl rfl)

/-- C7: an upstream timeout surfaces on both forwarding routes as local
status 500 whose error field carries the timed-out message, which differs
from the connection-error message. -/
theorem timeout_surfaces_as_500_with_timeout_message (base ts esn : String)
    (args : List (String × String)) :
    (get_all_inventory base ts args (fun _ => .timeout)).status = 500 ∧
    jget (get_all_inventory base ts args (fun _ => .timeout)).body "error" =
      .str "Request timed out" ∧
    (get_inventory_by_esn base ts esn (fun _ => .timeout)).status = 500 ∧
    jget (get_inventory_by_esn base ts esn (fun _ => .timeout)).body "error" =
      .str "Request timed out" ∧
    "Request timed out" ≠ "Could not connect to Wholecell API" :=
  ⟨rfl, rfl, rfl, rfl, by decide⟩

/-- C8 counterexample: an upstream 401 is surfaced by the esn route with
local status 500 (carrying the authentication-failure message), not with a
local 401-derived status. -/
theorem auth_failure_local_status_counterexample :
    (get_inventory_by_esn "B" "T" "X" (fun _ => .resp 401 .null)).status
      = 500 ∧
    jget (get_inventory_by_esn "B" "T" "X"
      (fun _ => .resp 401 .null)).body "error" =
      .str "Authentication failed" ∧
    (500 : Nat) ≠ 401 :=
  ⟨rfl, rfl, by decide⟩

/-- C8 amended: on the esn route an upstream 401 is surfaced as local 500
carrying the distinct authentication-failure message (the 401 itself is not
propagated as a local status); upstream not-found is surfaced as 404; and
timeouts, connection failures and other upstream statuses as 500. -/
theorem auth_failure_surfaced_as_500_with_message (base ts esn : String)
    (body : Json) (s : Nat) :
    (get_inventory_by_esn base ts esn (fun _ => .resp 401 body)).status
      = 500 ∧
    jget (get_inventory_by_esn base ts esn
      (fun _ => .resp 401 body)).body "error" =
      .str "Authentication failed" ∧
    (get_inventory_by_esn base ts esn (fun _ => .resp 404 body)).status
      = 404 ∧
    (get_inventory_by_esn base ts esn (fun _ => .timeout)).status = 500 ∧
    (get_inventory_by_esn base ts esn (fun _ => .connError)).status = 500 ∧
    (s ≠ 200 → s ≠ 401 → s ≠ 404 →
      (get_inventory_by_esn base ts esn (fun _ => .resp s body)).status
        = 500) := by
  refine ⟨rfl, rfl, rfl, rfl, rfl, ?_⟩
  intro h1 h2 h3
  have hne := api_error_ne_not_found s
  simp [get_inventory_by_esn, make_wholecell_request, h1, h2, h3, hne]

/-- Witness for C8 amended at the concrete unclassified status 503. -/
theorem auth_failure_surfaced_as_500_with_message_witness :
    (get_inventory_by_esn "B" "T" "X" (fun _ => .resp 503 .null)).status
      = 500 :=
  (auth_failure_surfaced_as_500_with_message "B" "T" "X" .null
    503).2.2.2.2.2 (by decide) (by decide) (by decide)

/-- C9: the `/api/config` body holds exactly the base URL and the two
configured-or-not booleans, and two configurations with non-empty secrets
and the same base URL give identical bodies, so no secret value flows into
the response. -/
theorem config_route_noninterference (a b : Config)
    (hbase : a.apiBase = b.apiBase)
    (ha1 : credPresent a.appId = true) (ha2 : credPresent a.appSecret = true)
    (hb1 : credPresent b.appId = true)
    (hb2 : credPresent b.appSecret = true) :
    get_config a = get_config b ∧
    get_config a =
      ⟨200, .obj [("api_base", .str a.apiBase),
                  ("app_id_configured", .bool true),
                  ("app_secret_configured", .bool true)]⟩ := by
  constructor
  · simp [get_config, ha1, ha2, hb1, hb2, hbase]
  · simp [get_config, ha1, ha2]

/-- Witness for C9: two configurations that differ only in their secret
values produce the same configuration body. -/
theorem config_route_noninterference_witness :
    get_config ⟨some "id1", some "sekA", "B"⟩ =
      get_config ⟨some "id2", some "sekB", "B"⟩ ∧
    get_config ⟨some "id1", some "sekA", "B"⟩ =
      ⟨200, .obj [("api_base", .str "B"),
                  ("app_id_configured", .bool true),
                  ("app_secret_configured", .bool true)]⟩ :=
  config_route_noninterference ⟨some "id1", some "sekA", "B"⟩
    ⟨some "id2", some "sekB", "B"⟩ rfl rfl rfl rfl rfl

end WholecellProxy
